import Mathlib

/-!
Verification of the vtms firmware sketches (led.cpp, temp.cpp,
thermoprobe.cpp) against their natural-language specification.

The embedding models:
* the LED controller's MQTT message callback (led.cpp, `callback`),
  acting on the four output pins;
* the client-identity construction shared by all three sketches
  (`setup`, the `client_id` string);
* the bus-session establishment trace — retry loop, announcement
  publish, subscriptions (`setup` in every sketch);
* the analog-voltage conversion and `dtostrf` formatting of temp.cpp;
* the no-op callbacks of the two sensor sketches.

Pins are booleans (HIGH = true, LOW = false).  MQTT payloads are raw
byte sequences, `List Nat` with each entry a byte value; the C code
copies `length` bytes into a buffer, appends a NUL terminator and then
uses `strcmp`, so comparisons see the payload truncated at its first
NUL byte.  Topics reach the callback as C strings (`char *topic`), so
they are modelled as Lean `String`s.
-/

namespace Vtms

/-- The four output pins of the LED controller (led.cpp lines 14–17:
`black_flag_gpio`, `red_flag_gpio`, `pit_soon_gpio`, `box_box_gpio`),
each holding a binary level. HIGH = `true`, LOW = `false`. -/
structure PinState where
  black_flag : Bool
  red_flag : Bool
  pit_soon : Bool
  box_box : Bool
deriving DecidableEq, Repr

/-- Byte sequence of the ASCII literal "true". -/
def trueBytes : List Nat := [116, 114, 117, 101]

/-- Byte sequence of the ASCII literal "false". -/
def falseBytes : List Nat := [102, 97, 108, 115, 101]

/-- The C-string view of the copied payload buffer: led.cpp lines 58–60
copy `length` bytes and append a NUL, so `strcmp` sees the payload
truncated at its first zero byte. -/
def cStr (payload : List Nat) : List Nat := payload.takeWhile (fun b => b ≠ 0)

/-- led.cpp `callback` (lines 57–100): four sequential `strcmp` matches
on the topic; within each, `strcmp` of the NUL-terminated payload copy
against "true" (set pin HIGH) then against "false" (set pin LOW). -/
def ledCallback (s : PinState) (topic : String) (payload : List Nat) : PinState :=
  let msg := cStr payload
  let s1 :=
    if topic = "lemons/flag/black" then
      let a := if msg = trueBytes then { s with black_flag := true } else s
      if msg = falseBytes then { a with black_flag := false } else a
    else s
  let s2 :=
    if topic = "lemons/flag/red" then
      let a := if msg = trueBytes then { s1 with red_flag := true } else s1
      if msg = falseBytes then { a with red_flag := false } else a
    else s1
  let s3 :=
    if topic = "lemons/pit" then
      let a := if msg = trueBytes then { s2 with pit_soon := true } else s2
      if msg = falseBytes then { a with pit_soon := false } else a
    else s2
  if topic = "lemons/box" then
    let a := if msg = trueBytes then { s3 with box_box := true } else s3
    if msg = falseBytes then { a with box_box := false } else a
  else s3

/-- The four logical signals of the LED controller. -/
inductive Signal where
  | black | red | pit | box
deriving DecidableEq, Repr

/-- Spec-side routing of a topic string to a signal: the four known
topic literals, anything else routed nowhere. -/
def topicSignal (t : String) : Option Signal :=
  if t = "lemons/flag/black" then some Signal.black
  else if t = "lemons/flag/red" then some Signal.red
  else if t = "lemons/pit" then some Signal.pit
  else if t = "lemons/box" then some Signal.box
  else none

/-- Spec-side payload interpretation: the NUL-truncated payload must be
exactly "true" (HIGH) or "false" (LOW); anything else means no level. -/
def msgLevel (payload : List Nat) : Option Bool :=
  if cStr payload = trueBytes then some true
  else if cStr payload = falseBytes then some false
  else none

/-- Read one signal's level from the pin-state table. -/
def getPin (s : PinState) : Signal → Bool
  | Signal.black => s.black_flag
  | Signal.red => s.red_flag
  | Signal.pit => s.pit_soon
  | Signal.box => s.box_box

/-- Write one signal's level in the pin-state table, leaving the other
three entries untouched. -/
def setPin (s : PinState) : Signal → Bool → PinState
  | Signal.black, v => { s with black_flag := v }
  | Signal.red, v => { s with red_flag := v }
  | Signal.pit, v => { s with pit_soon := v }
  | Signal.box, v => { s with box_box := v }

/-- Spec-side dispatcher (spec §4.3): route the topic to a signal and
the payload to a level; on both defined, set exactly that pin to that
level; otherwise change nothing. -/
def dispatchSpec (s : PinState) (t : String) (p : List Nat) : PinState :=
  match topicSignal t, msgLevel p with
  | some sig, some v => setPin s sig v
  | _, _ => s

lemma trueBytes_ne_falseBytes : trueBytes ≠ falseBytes := by decide

/-- The source callback coincides with the spec-side dispatcher. -/
lemma ledCallback_eq_dispatchSpec (s : PinState) (t : String) (p : List Nat) :
    ledCallback s t p = dispatchSpec s t p := by
  by_cases h1 : t = "lemons/flag/black" <;>
    by_cases h2 : t = "lemons/flag/red" <;>
      by_cases h3 : t = "lemons/pit" <;>
        by_cases h4 : t = "lemons/box" <;>
          by_cases m1 : cStr p = trueBytes <;>
            by_cases m2 : cStr p = falseBytes <;>
              simp_all [ledCallback, dispatchSpec, topicSignal, msgLevel, setPin,
                trueBytes, falseBytes]

lemma topicSignal_eq_none (t : String)
    (h1 : t ≠ "lemons/flag/black") (h2 : t ≠ "lemons/flag/red")
    (h3 : t ≠ "lemons/pit") (h4 : t ≠ "lemons/box") :
    topicSignal t = none := by
  unfold topicSignal
  simp [h1, h2, h3, h4]

lemma msgLevel_eq_none (p : List Nat)
    (h1 : cStr p ≠ trueBytes) (h2 : cStr p ≠ falseBytes) :
    msgLevel p = none := by
  unfold msgLevel
  simp [h1, h2]

/-- C1 counterexample: the payload bytes `"true"` followed by a NUL byte
and nothing else are not exactly the literal `"true"` nor `"false"`, so
the claim requires no pin change on topic `lemons/flag/black`; the code,
whose `strcmp` stops at the first NUL, sets the black-flag pin HIGH. -/
theorem ledCallback_nul_payload_changes_pin :
    (([116, 114, 117, 101, 0] : List Nat) ≠ trueBytes ∧
     ([116, 114, 117, 101, 0] : List Nat) ≠ falseBytes) ∧
    ledCallback ⟨false, false, false, false⟩ "lemons/flag/black" [116, 114, 117, 101, 0]
      ≠ ⟨false, false, false, false⟩ := by
  decide

/-- C1 (amended): the dispatcher behaves as the spec-side dispatch
function: if the topic is one of the four known literals and the payload
truncated at its first NUL byte is exactly "true" or "false", exactly the
corresponding pin is set to the corresponding level; in every other case
no pin state changes. -/
theorem ledCallback_matches_dispatchSpec (s : PinState) (t : String) (p : List Nat) :
    ledCallback s t p = dispatchSpec s t p :=
  ledCallback_eq_dispatchSpec s t p

/-- C2: for a topic that is none of the four known literals, the
dispatcher leaves all four pins unchanged, whatever the payload. -/
theorem ledCallback_unknown_topic_frame (s : PinState) (t : String) (p : List Nat)
    (h1 : t ≠ "lemons/flag/black") (h2 : t ≠ "lemons/flag/red")
    (h3 : t ≠ "lemons/pit") (h4 : t ≠ "lemons/box") :
    ledCallback s t p = s := by
  rw [ledCallback_eq_dispatchSpec]
  unfold dispatchSpec
  rw [topicSignal_eq_none t h1 h2 h3 h4]

/-- Witness for C2 at the subscribed status topic `emqx/esp32`. -/
theorem ledCallback_unknown_topic_frame_witness :
    ("emqx/esp32" ≠ "lemons/flag/black" ∧ "emqx/esp32" ≠ "lemons/flag/red" ∧
     "emqx/esp32" ≠ "lemons/pit" ∧ "emqx/esp32" ≠ "lemons/box") ∧
    ledCallback ⟨false, true, false, true⟩ "emqx/esp32" trueBytes = ⟨false, true, false, true⟩ :=
  ⟨⟨by decide, by decide, by decide, by decide⟩,
    ledCallback_unknown_topic_frame ⟨false, true, false, true⟩ "emqx/esp32" trueBytes
      (by decide) (by decide) (by decide) (by decide)⟩

/-- C3 counterexample: the payload bytes `"false"` followed by a NUL
byte and an extra byte are not exactly the literal `"true"` nor
`"false"`, so the claim requires no pin change on topic
`lemons/flag/red`; the code sets the red-flag pin LOW. -/
theorem ledCallback_nul_payload_clears_pin :
    (([102, 97, 108, 115, 101, 0, 120] : List Nat) ≠ trueBytes ∧
     ([102, 97, 108, 115, 101, 0, 120] : List Nat) ≠ falseBytes) ∧
    ledCallback ⟨false, true, false, false⟩ "lemons/flag/red" [102, 97, 108, 115, 101, 0, 120]
      ≠ ⟨false, true, false, false⟩ := by
  decide

/-- C3 (amended): on any topic, a payload whose truncation at its first
NUL byte is neither exactly "true" nor exactly "false" changes no pin
state. -/
theorem ledCallback_invalid_payload_frame (s : PinState) (t : String) (p : List Nat)
    (h1 : cStr p ≠ trueBytes) (h2 : cStr p ≠ falseBytes) :
    ledCallback s t p = s := by
  rw [ledCallback_eq_dispatchSpec]
  unfold dispatchSpec
  rw [msgLevel_eq_none p h1 h2]
  cases topicSignal t <;> rfl

/-- Witness for C3 (amended) with payload "x" on a known topic. -/
theorem ledCallback_invalid_payload_frame_witness :
    (cStr [120] ≠ trueBytes ∧ cStr [120] ≠ falseBytes) ∧
    ledCallback ⟨true, false, true, false⟩ "lemons/pit" [120] = ⟨true, false, true, false⟩ :=
  ⟨⟨by decide, by decide⟩,
    ledCallback_invalid_payload_frame ⟨true, false, true, false⟩ "lemons/pit" [120]
      (by decide) (by decide)⟩

/-- C4: dispatching the same valid (known topic, "true"/"false" payload)
message twice leaves the pin state equal to the state after the first
dispatch. -/
theorem ledCallback_idempotent (s : PinState) (t : String) (p : List Nat)
    (ht : t = "lemons/flag/black" ∨ t = "lemons/flag/red" ∨
          t = "lemons/pit" ∨ t = "lemons/box")
    (hp : p = trueBytes ∨ p = falseBytes) :
    ledCallback (ledCallback s t p) t p = ledCallback s t p := by
  simp only [ledCallback_eq_dispatchSpec]
  unfold dispatchSpec
  cases hsig : topicSignal t with
  | none => rfl
  | some sig =>
    cases hv : msgLevel p with
    | none => rfl
    | some v => cases sig <;> rfl

/-- Witness for C4: "true" on lemons/box, applied twice. -/
theorem ledCallback_idempotent_witness :
    ("lemons/box" = "lemons/flag/black" ∨ "lemons/box" = "lemons/flag/red" ∨
     "lemons/box" = "lemons/pit" ∨ "lemons/box" = "lemons/box") ∧
    (trueBytes = trueBytes ∨ trueBytes = falseBytes) ∧
    ledCallback (ledCallback ⟨false, false, false, false⟩ "lemons/box" trueBytes)
        "lemons/box" trueBytes =
      ledCallback ⟨false, false, false, false⟩ "lemons/box" trueBytes :=
  ⟨by decide, Or.inl rfl,
    ledCallback_idempotent ⟨false, false, false, false⟩ "lemons/box" trueBytes
      (by decide) (Or.inl rfl)⟩

/-- C6: from black-flag LOW, payload "true" on lemons/flag/black raises
the black-flag pin to HIGH, and a subsequent "false" on the same topic
lowers it back to LOW. -/
theorem black_flag_scenario (s : PinState) (h : s.black_flag = false) :
    (ledCallback s "lemons/flag/black" trueBytes).black_flag = true ∧
    (ledCallback (ledCallback s "lemons/flag/black" trueBytes)
        "lemons/flag/black" falseBytes).black_flag = false := by
  exact ⟨rfl, rfl⟩

/-- Witness for C6 from the all-LOW pin state. -/
theorem black_flag_scenario_witness :
    (PinState.mk false false false false).black_flag = false ∧
    (ledCallback ⟨false, false, false, false⟩ "lemons/flag/black" trueBytes).black_flag = true ∧
    (ledCallback (ledCallback ⟨false, false, false, false⟩ "lemons/flag/black" trueBytes)
        "lemons/flag/black" falseBytes).black_flag = false :=
  ⟨rfl, black_flag_scenario ⟨false, false, false, false⟩ rfl⟩

/-! ## Client identity (setup, all three sketches)

Every sketch builds, on each iteration of the connection retry loop,
`String client_id = "esp32-client-"; client_id += String(WiFi.macAddress());`. -/

/-- The client identity string for a device with hardware (MAC) address
`mac`: the fixed prefix concatenated with the address. -/
def clientId (mac : String) : String := "esp32-client-" ++ mac

/-- The identity string built on the `attempt`-th iteration of the
connection retry loop: the loop body recomputes the same concatenation
from the (fixed) hardware address, independent of the attempt index. -/
def clientIdAtAttempt (mac : String) (attempt : ℕ) : String :=
  clientId mac

/-- C5: client-identity formation is injective in the hardware address:
distinct MAC strings yield distinct identity strings. -/
theorem clientId_injective (a b : String) (h : a ≠ b) :
    clientId a ≠ clientId b := by
  intro he
  apply h
  have hd := congrArg String.data he
  simp only [clientId, String.data_append] at hd
  exact String.ext (List.append_cancel_left hd)

/-- Witness for C5 on two concrete distinct MAC strings. -/
theorem clientId_injective_witness :
    "AA:BB:CC:DD:EE:FF" ≠ "AA:BB:CC:DD:EE:00" ∧
    clientId "AA:BB:CC:DD:EE:FF" ≠ clientId "AA:BB:CC:DD:EE:00" :=
  ⟨by decide, clientId_injective "AA:BB:CC:DD:EE:FF" "AA:BB:CC:DD:EE:00" (by decide)⟩

/-- C8: the identity string used at every connection attempt is the
fixed prefix "esp32-client-" followed by the hardware address, and any
two attempts use the same identity string. -/
theorem clientId_immutable (mac : String) (n m : ℕ) :
    clientIdAtAttempt mac n = "esp32-client-" ++ mac ∧
    clientIdAtAttempt mac n = clientIdAtAttempt mac m :=
  ⟨rfl, rfl⟩

/-! ## Bus-session establishment trace (setup, all three sketches)

The setup sequence after Wi-Fi join is: `while (!client.connected())`
attempt `client.connect(client_id, ...)`; once connected, one
`client.publish(topic, announcement)` on `topic = "emqx/esp32"`, then
the `client.subscribe` calls.  The trace is modelled as a list of bus
events, driven by the list of outcomes of successive connect calls. -/

/-- An observable interaction with the MQTT broker. -/
inductive BusEvent where
  | connectAttempt (success : Bool)
  | publish (topic : String) (payload : String)
  | subscribe (filter : String)
deriving DecidableEq, Repr

/-- The connection retry loop: given the outcomes of successive
`client.connect` calls, the trace of attempts made and whether the loop
exited connected. The loop stops at the first successful attempt. -/
def connectRetry : List Bool → List BusEvent × Bool
  | [] => ([], false)
  | o :: rest =>
    if o then ([BusEvent.connectAttempt true], true)
    else (BusEvent.connectAttempt false :: (connectRetry rest).1, (connectRetry rest).2)

/-- The bus trace of a sketch's `setup`: the retry loop, and — only
once it exits connected — one announcement publish to "emqx/esp32"
followed by the sketch's subscriptions in order. -/
def setupTrace (announcement : String) (filters : List String)
    (outcomes : List Bool) : List BusEvent :=
  let r := connectRetry outcomes
  if r.2 then
    r.1 ++ [BusEvent.publish "emqx/esp32" announcement]
      ++ filters.map BusEvent.subscribe
  else r.1

/-- The announcement and subscription set of led.cpp (lines 52–54). -/
def ledSetupTrace (outcomes : List Bool) : List BusEvent :=
  setupTrace "Hi, I'm VTMS LED Controller" ["emqx/esp32", "lemons/#"] outcomes

/-- The announcement and subscription set of temp.cpp (lines 46–47) and
thermoprobe.cpp (lines 56–57). -/
def sensorSetupTrace (outcomes : List Bool) : List BusEvent :=
  setupTrace "Hi, I'm VTMS MQTT Sensor" ["emqx/esp32"] outcomes

/-- Recognizer for publish events. -/
def isPublish : BusEvent → Bool
  | BusEvent.publish _ _ => true
  | _ => false

lemma connectRetry_of_mem_true (outcomes : List Bool) (h : true ∈ outcomes) :
    ∃ k, connectRetry outcomes =
      (List.replicate k (BusEvent.connectAttempt false)
        ++ [BusEvent.connectAttempt true], true) := by
  induction outcomes with
  | nil => cases h
  | cons o rest ih =>
    by_cases ho : o = true
    · subst ho
      exact ⟨0, by simp [connectRetry]⟩
    · have ho' : o = false := by simpa using ho
      subst ho'
      have hm : true ∈ rest := by simpa using h
      obtain ⟨k, hk⟩ := ih hm
      refine ⟨k + 1, ?_⟩
      simp [connectRetry, hk, List.replicate_succ]

/-- C9: whenever some connect attempt succeeds, the setup trace consists
of the failed attempts, then the first successful attempt, then exactly
one publish — the announcement to the fixed status topic "emqx/esp32" —
then the subscriptions; so nothing is published or subscribed before the
connection succeeds, the announcement is published exactly once, and
every subscription is registered after it. -/
theorem setupTrace_ordering (announcement : String) (filters : List String)
    (outcomes : List Bool) (h : true ∈ outcomes) :
    (∃ k, setupTrace announcement filters outcomes =
      List.replicate k (BusEvent.connectAttempt false)
        ++ [BusEvent.connectAttempt true,
            BusEvent.publish "emqx/esp32" announcement]
        ++ filters.map BusEvent.subscribe) ∧
    ((setupTrace announcement filters outcomes).filter isPublish).length = 1 := by
  obtain ⟨k, hk⟩ := connectRetry_of_mem_true outcomes h
  have hrep : List.filter isPublish (List.replicate k (BusEvent.connectAttempt false)) = [] := by
    induction k with
    | zero => rfl
    | succ n ih => simp [List.replicate_succ, List.filter_cons, isPublish, ih]
  have hsub : List.filter isPublish (filters.map BusEvent.subscribe) = [] := by
    induction filters with
    | nil => rfl
    | cons f rest ih => simp [List.filter_cons, isPublish, ih]
  constructor
  · refine ⟨k, ?_⟩
    simp [setupTrace, hk]
  · simp [setupTrace, hk, List.filter_append, hrep, hsub, List.filter_cons, isPublish]

/-- Witness for C9 on the LED controller's trace with one failure then
success. -/
theorem setupTrace_ordering_witness :
    true ∈ [false, true] ∧
    ((∃ k, setupTrace "Hi, I'm VTMS LED Controller" ["emqx/esp32", "lemons/#"] [false, true] =
      List.replicate k (BusEvent.connectAttempt false)
        ++ [BusEvent.connectAttempt true,
            BusEvent.publish "emqx/esp32" "Hi, I'm VTMS LED Controller"]
        ++ (["emqx/esp32", "lemons/#"] : List String).map BusEvent.subscribe) ∧
    ((setupTrace "Hi, I'm VTMS LED Controller" ["emqx/esp32", "lemons/#"]
        [false, true]).filter isPublish).length = 1) :=
  ⟨by decide,
    setupTrace_ordering "Hi, I'm VTMS LED Controller" ["emqx/esp32", "lemons/#"]
      [false, true] (by decide)⟩

/-! ## Analog voltage sketch (temp.cpp)

`loop` reads the ADC, computes
`voltage = ((float)sensorValue * REF_VOLTAGE) / ADC_RESOLUTION` with
`REF_VOLTAGE = 3.3` and `ADC_RESOLUTION = 4096.0`, formats it with
`dtostrf(voltage, 6, 3, voltageStr)` and publishes the string to
`lemons/temp/transmission`.  The arithmetic is embedded over exact
rationals; at the mid-scale input the real value 1.65 is representable
closely enough in binary floating point that the 3-decimal rounding is
the same. -/

/-- temp.cpp line 14: `#define REF_VOLTAGE 3.3`. -/
def REF_VOLTAGE : ℚ := 33 / 10

/-- temp.cpp line 15: `#define ADC_RESOLUTION 4096.0`. -/
def ADC_RESOLUTION : ℚ := 4096

/-- The voltage computed from a raw ADC sample (temp.cpp line 63). -/
def adcToVoltage (raw : ℕ) : ℚ := (raw : ℚ) * REF_VOLTAGE / ADC_RESOLUTION

/-- A natural number below 1000 rendered as exactly three digits. -/
def natDigits3 (n : ℕ) : String :=
  let s := toString n
  String.mk (List.replicate (3 - s.length) '0') ++ s

/-- The value scaled to thousandths and rounded (half up, the rounding
`dtostrf` performs for nonnegative values). -/
def roundMilli (q : ℚ) : ℤ := ⌊q * 1000 + 1 / 2⌋

/-- Render a thousandths count as integer part, dot, three fractional
digits, left-padded with spaces to a minimum width of six. -/
def formatMilli (n : ℤ) : String :=
  let s := toString (n / 1000) ++ "." ++ natDigits3 (n % 1000).toNat
  String.mk (List.replicate (6 - s.length) ' ') ++ s

/-- `dtostrf(q, 6, 3, buf)` for a nonnegative value: round to three
decimal places and render at minimum width six. -/
def dtostrf_6_3 (q : ℚ) : String := formatMilli (roundMilli q)

/-- The (topic, payload) pair published by one iteration of temp.cpp's
`loop` (lines 61–70) for a given raw ADC sample. -/
def tempLoopPublish (raw : ℕ) : String × String :=
  ("lemons/temp/transmission", dtostrf_6_3 (adcToVoltage raw))

/-- C7: the mid-scale sample 2048 yields exactly 2048·3.3/4096 = 1.65 V,
and the string published to lemons/temp/transmission is the width-6,
3-decimal rendering " 1.650" of that value. -/
theorem tempLoopPublish_midscale :
    adcToVoltage 2048 = 33 / 20 ∧
    tempLoopPublish 2048 = ("lemons/temp/transmission", " 1.650") := by
  have h1 : adcToVoltage 2048 = 33 / 20 := by
    norm_num [adcToVoltage, REF_VOLTAGE, ADC_RESOLUTION]
  have h2 : roundMilli (33 / 20) = 1650 := by
    unfold roundMilli
    norm_num
  refine ⟨h1, ?_⟩
  unfold tempLoopPublish dtostrf_6_3
  rw [h1, h2]
  exact congrArg _ (by decide)

/-! ## Sensor-sketch callbacks (temp.cpp lines 51–58, thermoprobe.cpp
lines 60–67)

Both sensor sketches install a callback that copies the payload into a
NUL-terminated buffer and prints three log lines; it touches no global,
no pin and no connection state. -/

/-- The mutable program state of a sensor sketch visible to its
callback: the globals of thermoprobe.cpp (`temp_C`, `temp_F`, `buf`),
the pin levels and the bus-connection flag. -/
structure SensorState where
  temp_C : Int
  temp_F : Int
  buf : String
  pins : List Bool
  connected : Bool
deriving DecidableEq, Repr

/-- Byte sequence rendered as text for the log. -/
def bytesToString (bs : List Nat) : String :=
  String.mk (bs.map Char.ofNat)

/-- The sensor sketches' `callback`: builds the NUL-terminated payload
copy, emits the three log lines, and performs no other action. -/
def sensorCallback (s : SensorState) (topic : String) (payload : List Nat) :
    SensorState × List String :=
  (s, ["Message arrived in topic: " ++ topic,
       "Message: " ++ bytesToString (cStr payload),
       "-----------------------"])

/-- C10: for every topic and payload, the sensor sketches' callback
leaves the whole program state (globals, pins, connection) unchanged,
producing only log output. -/
theorem sensorCallback_no_state_change (s : SensorState) (topic : String)
    (payload : List Nat) :
    (sensorCallback s topic payload).1 = s :=
  rfl

end Vtms
